import Mathlib

/-! FlixHQ-API: a shallow embedding of the provider pipeline

Go strings are embedded as Lean `String`s and Go `(value, error)` results as a
pair of the value and an optional error message (`none` is Go's `nil` error).
Library and network behaviour (HTTP, JSON decoding, URL parsing, Unicode case
tables) and the parts of the repository whose sources are not available
(stream decryption, most provider variants) enter the model as the fields of
an explicit environment `Env`. Every network fetch and every provider
operation invoked while serving a request is recorded in the outcome.
-/

namespace FlixHQAPI

/-! ## Go strings and library types -/

/-- Splitting of a character sequence at every occurrence of `sep`: the
pieces between consecutive separators, in order. A sequence with `n`
separators yields `n + 1` pieces. -/
def splitChars (sep : Char) : List Char → List (List Char)
  | [] => [[]]
  | c :: cs =>
    if c = sep then [] :: splitChars sep cs
    else
      match splitChars sep cs with
      | [] => [[c]]
      | p :: ps => (c :: p) :: ps

/-- Go's `strings.Split(s, sep)` for a one-character separator, as used by the
providers (`strings.Split(id, ":")`). -/
def stringsSplit (s : String) (sep : Char) : List String :=
  (splitChars sep s.data).map String.mk

/-- Go's indexing `parts[i]` on a slice whose length has been checked; an
index out of range is a run-time panic in Go and is embedded as `""`. -/
def idx (parts : List String) (i : Nat) : String :=
  parts.getD i ""

/-- ASCII lower-casing of one character, `c += 'a' - 'A'` for `'A' <= c <= 'Z'`. -/
def asciiLower (c : Char) : Char :=
  if 65 ≤ c.toNat ∧ c.toNat ≤ 90 then Char.ofNat (c.toNat + 32) else c

/-- Go's `unicode.ToLower`: ASCII characters are lower-cased arithmetically,
all others through the Unicode case table `tbl`. -/
def unicodeToLower (tbl : Char → Char) (c : Char) : Char :=
  if c.toNat < 128 then asciiLower c else tbl c

/-- Go's `strings.ToLower`, relative to the Unicode case table `tbl`. -/
def stringsToLower (tbl : Char → Char) (s : String) : String :=
  String.mk (s.data.map (unicodeToLower tbl))

/-- Go's `fmt.Sprintf("%d", n)`. -/
def fmtInt (n : Int) : String := toString n

/-- The Go result pair `(value, error)`. -/
structure Result (α : Type) where
  val : α
  err : Option String
  deriving DecidableEq, Repr

/-- The result pair of an operation that may use the network, together with
the URLs it requested, in order. -/
structure Traced (α : Type) where
  val : α
  err : Option String
  fetched : List String
  deriving DecidableEq, Repr

/-- A result obtained without any network access. -/
def Result.traced {α : Type} (r : Result α) : Traced α :=
  ⟨r.val, r.err, []⟩

/-- Go's `url.Values`, a map from a key to its values in order of appearance. -/
abbrev Values := List (String × List String)

/-- Go's `Values.Get`: the first value of the key, `""` when there is none. -/
def Values.Get (v : Values) (key : String) : String :=
  match v.lookup key with
  | some (x :: _) => x
  | _ => ""

/-- The part of a parsed `*url.URL` the program reads: what `u.Query()` returns. -/
structure URL where
  Query : Values
  deriving DecidableEq, Repr

/-- The shared `*http.Client`: `Get` yields the response body or a transport error. -/
structure Client where
  Get : String → Except String String

/-! ## package core -/

def TMDB_API_KEY : String := "653bb8af90162bd98fc7ee32bcbbfb3d"
def TMDB_BASE_URL : String := "https://api.themoviedb.org/3"
def Movie : String := "movie"
def Series : String := "series"

structure TmdbSearchItem where
  ID : Int
  MediaType : String
  Title : String
  Name : String
  PosterPath : String
  ReleaseDate : String
  FirstAirDate : String
  deriving DecidableEq, Repr

structure TmdbSearchResult where
  Results : List TmdbSearchItem
  deriving DecidableEq, Repr

structure TmdbSeason where
  ID : Int
  Name : String
  SeasonNumber : Int
  deriving DecidableEq, Repr

structure TmdbShowDetails where
  Seasons : List TmdbSeason
  deriving DecidableEq, Repr

structure TmdbEpisode where
  ID : Int
  EpisodeNumber : Int
  Name : String
  deriving DecidableEq, Repr

structure TmdbSeasonDetails where
  Episodes : List TmdbEpisode
  deriving DecidableEq, Repr

structure SearchResult where
  Title : String
  URL : String
  MediaType : String
  Poster : String
  Year : String
  deriving DecidableEq, Repr

structure Season where
  ID : String
  Name : String
  deriving DecidableEq, Repr

structure Episode where
  ID : String
  Name : String
  deriving DecidableEq, Repr

structure Server where
  ID : String
  Name : String
  deriving DecidableEq, Repr

structure StreamResult where
  StreamURL : String
  Subtitles : List String
  Referer : String
  deriving DecidableEq, Repr

/-- The interface `core.Provider`. Every operation reports the URLs it fetched. -/
structure Provider where
  Name : String
  Search : String → Traced (List SearchResult)
  GetMediaID : String → Traced String
  GetSeasons : String → Traced (List Season)
  GetEpisodes : String → Bool → Traced (List Episode)
  GetServers : String → Traced (List Server)
  GetLink : String → Traced String

/-- What `core.DecryptStream` returns: `(streamURL, subtitles, referer, err)`,
with the URLs it requested. -/
structure Decrypted where
  streamURL : String
  subtitles : List String
  referer : String
  err : Option String
  fetched : List String
  deriving DecidableEq, Repr

/-- What the loop of `FlixHQ.Search` reads from one `div.flw-item` element of
the parsed page. An attribute is `none` when the selector matches nothing or
the matched element lacks the attribute, the cases in which `AttrOr` falls
back on its default. -/
structure FlwItem where
  /-- The attribute `title` of `h2.film-name a`. -/
  title : Option String
  /-- The attribute `href` of `div.film-poster a`. -/
  href : Option String
  /-- The attribute `data-src` of `img.film-poster-img`. -/
  dataSrc : Option String
  /-- The text of `span.fdi-type`. -/
  fdiType : String
  deriving DecidableEq, Repr

/-- The program's surroundings: the Go standard library functions it calls and
the code of the repository that lies outside the available sources. -/
structure Env where
  /-- The function `url.Parse` of `net/url`. -/
  urlParse : String → Except String URL
  /-- The function `url.QueryEscape` of `net/url`. -/
  QueryEscape : String → String
  /-- The case table behind `unicode.ToLower` for non-ASCII characters. -/
  lowerTable : Char → Char
  /-- Decoding of a response body with `json.NewDecoder(body).Decode`, per target type. -/
  decodeSearch : String → Except String TmdbSearchResult
  decodeShow : String → Except String TmdbShowDetails
  decodeSeason : String → Except String TmdbSeasonDetails
  /-- The functions `strings.TrimSpace` and `strings.EqualFold`, which rest on
  Unicode tables. -/
  TrimSpace : String → String
  EqualFold : String → String → Bool
  /-- Parsing of a response body with `goquery.NewDocumentFromReader`, followed by
  `doc.Find("div.flw-item")`: the matched elements in document order. -/
  flwItems : String → Except String (List FlwItem)
  /-- The constructor `core.NewClient()`. -/
  NewClient : Client
  /-- The function `core.DecryptStream(link, client)`. -/
  DecryptStream : String → Client → Decrypted
  /-- The provider constructors other than `NewBrocoflix`. Each returns a pointer
  to its variant, so the interface value stored in the registry is never the nil
  interface that `getProvider` tests for. -/
  NewFlixHQ : Client → Provider
  NewXPrime : Client → Provider
  NewSflix : Client → Provider
  NewBraflix : Client → Provider
  NewHDRezka : Client → Provider
  NewMovies4u : Client → Provider
  NewYouTube : Client → Provider

/-! ## package providers: Brocoflix -/

def BROCOFLIX_BASE_URL : String := "https://brocoflix.xyz"

/-- The provider variant `Brocoflix`, holding the shared client. -/
structure Brocoflix where
  Client : Client

def NewBrocoflix (client : Client) : Brocoflix := ⟨client⟩

namespace Brocoflix

def Name (_b : Brocoflix) : String := "brocoflix"

/-- One iteration of the result loop of `Brocoflix.Search`. -/
def searchItem (item : TmdbSearchItem) : List SearchResult :=
  if item.MediaType ≠ "movie" ∧ item.MediaType ≠ "tv" then []
  else
    let title := if item.MediaType = "tv" then item.Name else item.Title
    let poster :=
      if item.PosterPath ≠ "" then "https://image.tmdb.org/t/p/w500" ++ item.PosterPath else ""
    let mediaType := if item.MediaType = "tv" then Series else Movie
    let resURL := BROCOFLIX_BASE_URL ++ "/pages/info.html?id=" ++ fmtInt item.ID
      ++ "&type=" ++ item.MediaType
    [⟨title, resURL, mediaType, poster, ""⟩]

def Search (env : Env) (b : Brocoflix) (query : String) : Traced (List SearchResult) :=
  let u := TMDB_BASE_URL ++ "/search/multi" ++ "?api_key=" ++ env.QueryEscape TMDB_API_KEY
    ++ "&query=" ++ env.QueryEscape query
  match b.Client.Get u with
  | .error e => ⟨[], some e, [u]⟩
  | .ok body =>
    match env.decodeSearch body with
    | .error e => ⟨[], some e, [u]⟩
    | .ok data => ⟨data.Results.flatMap searchItem, none, [u]⟩

def GetMediaID (env : Env) (_b : Brocoflix) (urlStr : String) : Result String :=
  match env.urlParse urlStr with
  | .error e => ⟨"", some e⟩
  | .ok u =>
    let q := u.Query
    let id := q.Get "id"
    let mediaType := q.Get "type"
    if id = "" ∨ mediaType = "" then ⟨"", some "invalid url"⟩
    else ⟨mediaType ++ ":" ++ id, none⟩

/-- One iteration of the season loop of `Brocoflix.GetSeasons`. -/
def seasonItem (id : String) (s : TmdbSeason) : List Season :=
  if s.SeasonNumber = 0 then []
  else [⟨"series:" ++ id ++ ":" ++ fmtInt s.SeasonNumber, s.Name⟩]

def GetSeasons (env : Env) (b : Brocoflix) (mediaID : String) : Traced (List Season) :=
  let parts := stringsSplit mediaID ':'
  if parts.length ≠ 2 then ⟨[], some "invalid media id format", []⟩
  else
    let mediaType := idx parts 0
    let id := idx parts 1
    if mediaType = "movie" then ⟨[], none, []⟩
    else
      let u := TMDB_BASE_URL ++ "/tv/" ++ id ++ "?api_key=" ++ TMDB_API_KEY
      match b.Client.Get u with
      | .error e => ⟨[], some e, [u]⟩
      | .ok body =>
        match env.decodeShow body with
        | .error e => ⟨[], some e, [u]⟩
        | .ok details => ⟨details.Seasons.flatMap (seasonItem id), none, [u]⟩

/-- The four directly addressable servers for an id, each with the ID that
prefixes the id with the server discriminator. -/
def serversFor (id : String) : List Server :=
  [ ⟨"vidsrc:" ++ id, "VidSrc"⟩,
    ⟨"multiembed:" ++ id, "MultiEmbed"⟩,
    ⟨"vidlink:" ++ id, "VidLink"⟩,
    ⟨"embedsu:" ++ id, "EmbedSu"⟩ ]

def GetEpisodes (env : Env) (b : Brocoflix) (id : String) (isSeason : Bool) :
    Traced (List Episode) :=
  if ¬ isSeason then
    let servers : List Server :=
      [ ⟨"vidsrc:" ++ id, "VidSrc"⟩,
        ⟨"multiembed:" ++ id, "MultiEmbed"⟩,
        ⟨"vidlink:" ++ id, "VidLink"⟩,
        ⟨"embedsu:" ++ id, "EmbedSu"⟩ ]
    let eps : List Episode := servers.foldl (fun eps s => eps ++ [⟨s.ID, s.Name⟩]) []
    ⟨eps, none, []⟩
  else
    let parts := stringsSplit id ':'
    if parts.length ≠ 3 then ⟨[], some "invalid season id", []⟩
    else
      let showID := idx parts 1
      let seasonNum := idx parts 2
      let u := TMDB_BASE_URL ++ "/tv/" ++ showID ++ "/season/" ++ seasonNum
        ++ "?api_key=" ++ TMDB_API_KEY
      match b.Client.Get u with
      | .error e => ⟨[], some e, [u]⟩
      | .ok body =>
        match env.decodeSeason body with
        | .error e => ⟨[], some e, [u]⟩
        | .ok data =>
          ⟨data.Episodes.map (fun ep =>
              ⟨id ++ ":" ++ fmtInt ep.EpisodeNumber,
               "Episode " ++ fmtInt ep.EpisodeNumber ++ ": " ++ ep.Name⟩),
            none, [u]⟩

def GetServers (_b : Brocoflix) (episodeID : String) : Result (List Server) :=
  let servers : List Server :=
    [ ⟨"vidsrc:" ++ episodeID, "VidSrc"⟩,
      ⟨"multiembed:" ++ episodeID, "MultiEmbed"⟩,
      ⟨"vidlink:" ++ episodeID, "VidLink"⟩,
      ⟨"embedsu:" ++ episodeID, "EmbedSu"⟩ ]
  ⟨servers, none⟩

/-- The embed link is built from the tokens of the server ID alone. -/
def GetLink (_b : Brocoflix) (serverID : String) : Result String :=
  let parts := stringsSplit serverID ':'
  if parts.length < 3 then
    ⟨"", some "invalid server id"⟩
  else
    let serverName := idx parts 0
    let mediaType := idx parts 1
    let tmdbID := idx parts 2
    let se : String × String :=
      if mediaType = "series" ∧ parts.length ≥ 5 then (idx parts 3, idx parts 4)
      else ("", "")
    let season := se.1
    let episode := se.2
    if serverName = "vidsrc" then
      if mediaType = "movie" then
        ⟨"https://vidsrc.xyz/embed/movie/" ++ tmdbID, none⟩
      else
        ⟨"https://vidsrc.xyz/embed/tv/" ++ tmdbID ++ "/" ++ season ++ "/" ++ episode, none⟩
    else if serverName = "multiembed" then
      if mediaType = "movie" then
        ⟨"https://multiembed.mov/?video_id=" ++ tmdbID ++ "&tmdb=1", none⟩
      else
        ⟨"https://multiembed.mov/?video_id=" ++ tmdbID ++ "&tmdb=1&s=" ++ season
          ++ "&e=" ++ episode, none⟩
    else if serverName = "vidlink" then
      if mediaType = "movie" then
        ⟨"https://vidlink.pro/movie/" ++ tmdbID, none⟩
      else
        ⟨"https://vidlink.pro/tv/" ++ tmdbID ++ "/" ++ season ++ "/" ++ episode, none⟩
    else if serverName = "embedsu" then
      if mediaType = "movie" then
        ⟨"https://embed.su/embed/movie/" ++ tmdbID, none⟩
      else
        ⟨"https://embed.su/embed/tv/" ++ tmdbID ++ "/" ++ season ++ "/" ++ episode, none⟩
    else
      ⟨"", some ("unknown server: " ++ serverName)⟩

/-- The value `*Brocoflix` seen through the interface `core.Provider`. -/
def asProvider (env : Env) (b : Brocoflix) : Provider where
  Name := b.Name
  Search := b.Search env
  GetMediaID := fun u => (b.GetMediaID env u).traced
  GetSeasons := b.GetSeasons env
  GetEpisodes := b.GetEpisodes env
  GetServers := fun e => (b.GetServers e).traced
  GetLink := fun s => (b.GetLink s).traced

end Brocoflix

/-! ## package providers: FlixHQ

Only `Search` is embedded; the registry takes the whole variant from `Env`. -/

def FLIXHQ_BASE_URL : String := "https://flixhq.to"
def FLIXHQ_SEARCH_URL : String := FLIXHQ_BASE_URL ++ "/search"

/-- The provider variant `FlixHQ`, holding the shared client. -/
structure FlixHQ where
  Client : Client

/-- Go's `strings.ReplaceAll(s, " ", "-")`. -/
def replaceSpaces (s : String) : String :=
  String.mk (s.data.map (fun c => if c = ' ' then '-' else c))

/-- The method `EachWithBreak` of a goquery selection: the callback runs on the
elements in order, with their index, until it returns `false`. -/
def eachWithBreak {σ α : Type} (f : Nat → α → σ → σ × Bool) : Nat → List α → σ → σ
  | _, [], st => st
  | i, x :: xs, st =>
    if (f i x st).2 then eachWithBreak f (i + 1) xs (f i x st).1 else (f i x st).1

namespace FlixHQ

/-- The callback of the loop of `FlixHQ.Search`, on the results gathered so far. -/
def searchStep (env : Env) (i : Nat) (s : FlwItem) (results : List SearchResult) :
    List SearchResult × Bool :=
  if i ≥ 10 then (results, false)
  else
    let title := s.title.getD "Unknown"
    let href := s.href.getD ""
    let poster := s.dataSrc.getD ""
    let typeStr := env.TrimSpace s.fdiType
    let mediaType :=
      if env.EqualFold typeStr "TV" ∨ env.EqualFold typeStr "Series" then Series else Movie
    if href ≠ "" then (results ++ [⟨title, FLIXHQ_BASE_URL ++ href, mediaType, poster, ""⟩], true)
    else (results, true)

/-- The part of `FlixHQ.Search` that follows the fetch: the loop over the
`div.flw-item` elements and the final check. -/
def searchItems (env : Env) (items : List FlwItem) : Result (List SearchResult) :=
  let results := eachWithBreak (searchStep env) 0 items []
  if results.length = 0 then ⟨[], some "no results"⟩ else ⟨results, none⟩

/-- The request is embedded by its URL; the headers set by `newRequest` are not. -/
def Search (env : Env) (f : FlixHQ) (query : String) : Traced (List SearchResult) :=
  let search := replaceSpaces query
  let u := FLIXHQ_SEARCH_URL ++ "/" ++ search
  match f.Client.Get u with
  | .error e => ⟨[], some e, [u]⟩
  | .ok body =>
    match env.flwItems body with
    | .error e => ⟨[], some e, [u]⟩
    | .ok items => ⟨(searchItems env items).val, (searchItems env items).err, [u]⟩

end FlixHQ

/-! ## package handlers -/

/-- A provider operation (or the decryption step) invoked while serving a request. -/
inductive Call
  | Search (query : String)
  | GetMediaID (url : String)
  | GetSeasons (mediaID : String)
  | GetEpisodes (id : String) (isSeason : Bool)
  | GetServers (episodeID : String)
  | GetLink (serverID : String)
  | DecryptStream (link : String)
  deriving DecidableEq, Repr

/-- The JSON value written to the caller. -/
inductive Body
  | error (message : String)
  | providers (names : List String)
  | results (rs : List SearchResult)
  | mediaID (id : String)
  | seasons (ss : List Season)
  | episodes (es : List Episode)
  | servers (ss : List Server)
  | link (l : String)
  | stream (s : StreamResult)
  deriving DecidableEq, Repr

/-- What serving one request amounts to: the status and body written, the
provider operations invoked and the URLs fetched on the way, in order. -/
structure Outcome where
  status : Nat
  body : Body
  calls : List Call
  fetched : List String
  deriving DecidableEq, Repr

def StatusOK : Nat := 200
def StatusBadRequest : Nat := 400
def StatusInternalServerError : Nat := 500

/-- The request as the handlers read it: `r.URL.Query()`. -/
structure Request where
  Query : Values
  deriving DecidableEq, Repr

/-- Assignment `m[k] = v` on a Go map kept as an association list with distinct keys. -/
def mapSet {α : Type} (m : List (String × α)) (k : String) (v : α) : List (String × α) :=
  match m with
  | [] => [(k, v)]
  | (k', v') :: rest => if k' = k then (k, v) :: rest else (k', v') :: mapSet rest k v

/-- The order in which one `range` loop over a Go map visits the keys: the
runtime picks it, and it visits every key exactly once. -/
structure RangeOrder where
  visit : List String → List String
  perm : ∀ ks, (visit ks).Perm ks

structure Handler where
  providers : List (String × Provider)
  client : Client

def NewHandler (env : Env) : Handler :=
  let client := env.NewClient
  let m : List (String × Provider) := []
  let m := mapSet m "flixhq" (env.NewFlixHQ client)
  let m := mapSet m "brocoflix" ((NewBrocoflix client).asProvider env)
  let m := mapSet m "xprime" (env.NewXPrime client)
  let m := mapSet m "sflix" (env.NewSflix client)
  let m := mapSet m "braflix" (env.NewBraflix client)
  let m := mapSet m "hdrezka" (env.NewHDRezka client)
  let m := mapSet m "movies4u" (env.NewMovies4u client)
  let m := mapSet m "youtube" (env.NewYouTube client)
  ⟨m, client⟩

def writeJSON (status : Nat) (data : Body) (calls : List Call) (fetched : List String) :
    Outcome :=
  ⟨status, data, calls, fetched⟩

def writeError (status : Nat) (message : String) (calls : List Call)
    (fetched : List String) : Outcome :=
  writeJSON status (.error message) calls fetched

namespace Handler

/-- The lookup `h.providers[strings.ToLower(name)]`; `none` is the nil interface. -/
def getProvider (env : Env) (h : Handler) (name : String) : Option Provider :=
  let name := if name = "" then "flixhq" else name
  h.providers.lookup (stringsToLower env.lowerTable name)

def ListProviders (ord : RangeOrder) (h : Handler) (_r : Request) : Outcome :=
  let names := ord.visit (h.providers.map Prod.fst)
  writeJSON StatusOK (.providers names) [] []

def Search (env : Env) (h : Handler) (r : Request) : Outcome :=
  let query := r.Query.Get "q"
  let providerName := r.Query.Get "provider"
  if query = "" then
    writeError StatusBadRequest "query parameter 'q' is required" [] []
  else
    match h.getProvider env providerName with
    | none => writeError StatusBadRequest "invalid provider" [] []
    | some provider =>
      let res := provider.Search query
      match res.err with
      | some e => writeError StatusInternalServerError e [.Search query] res.fetched
      | none => writeJSON StatusOK (.results res.val) [.Search query] res.fetched

def GetMediaID (env : Env) (h : Handler) (r : Request) : Outcome :=
  let url := r.Query.Get "url"
  let providerName := r.Query.Get "provider"
  if url = "" then
    writeError StatusBadRequest "query parameter 'url' is required" [] []
  else
    match h.getProvider env providerName with
    | none => writeError StatusBadRequest "invalid provider" [] []
    | some provider =>
      let res := provider.GetMediaID url
      match res.err with
      | some e => writeError StatusInternalServerError e [.GetMediaID url] res.fetched
      | none => writeJSON StatusOK (.mediaID res.val) [.GetMediaID url] res.fetched

def GetSeasons (env : Env) (h : Handler) (r : Request) : Outcome :=
  let mediaID := r.Query.Get "mediaId"
  let providerName := r.Query.Get "provider"
  if mediaID = "" then
    writeError StatusBadRequest "query parameter 'mediaId' is required" [] []
  else
    match h.getProvider env providerName with
    | none => writeError StatusBadRequest "invalid provider" [] []
    | some provider =>
      let res := provider.GetSeasons mediaID
      match res.err with
      | some e => writeError StatusInternalServerError e [.GetSeasons mediaID] res.fetched
      | none => writeJSON StatusOK (.seasons res.val) [.GetSeasons mediaID] res.fetched

def GetEpisodes (env : Env) (h : Handler) (r : Request) : Outcome :=
  let id := r.Query.Get "id"
  let providerName := r.Query.Get "provider"
  let isSeason : Bool := r.Query.Get "isSeason" = "true"
  if id = "" then
    writeError StatusBadRequest "query parameter 'id' is required" [] []
  else
    match h.getProvider env providerName with
    | none => writeError StatusBadRequest "invalid provider" [] []
    | some provider =>
      let res := provider.GetEpisodes id isSeason
      match res.err with
      | some e =>
        writeError StatusInternalServerError e [.GetEpisodes id isSeason] res.fetched
      | none => writeJSON StatusOK (.episodes res.val) [.GetEpisodes id isSeason] res.fetched

def GetServers (env : Env) (h : Handler) (r : Request) : Outcome :=
  let episodeID := r.Query.Get "episodeId"
  let providerName := r.Query.Get "provider"
  if episodeID = "" then
    writeError StatusBadRequest "query parameter 'episodeId' is required" [] []
  else
    match h.getProvider env providerName with
    | none => writeError StatusBadRequest "invalid provider" [] []
    | some provider =>
      let res := provider.GetServers episodeID
      match res.err with
      | some e => writeError StatusInternalServerError e [.GetServers episodeID] res.fetched
      | none => writeJSON StatusOK (.servers res.val) [.GetServers episodeID] res.fetched

def GetLink (env : Env) (h : Handler) (r : Request) : Outcome :=
  let serverID := r.Query.Get "serverId"
  let providerName := r.Query.Get "provider"
  if serverID = "" then
    writeError StatusBadRequest "query parameter 'serverId' is required" [] []
  else
    match h.getProvider env providerName with
    | none => writeError StatusBadRequest "invalid provider" [] []
    | some provider =>
      let res := provider.GetLink serverID
      match res.err with
      | some e => writeError StatusInternalServerError e [.GetLink serverID] res.fetched
      | none => writeJSON StatusOK (.link res.val) [.GetLink serverID] res.fetched

def GetStream (env : Env) (h : Handler) (r : Request) : Outcome :=
  let serverID := r.Query.Get "serverId"
  let providerName := r.Query.Get "provider"
  if serverID = "" then
    writeError StatusBadRequest "query parameter 'serverId' is required" [] []
  else
    match h.getProvider env providerName with
    | none => writeError StatusBadRequest "invalid provider" [] []
    | some provider =>
      let res := provider.GetLink serverID
      match res.err with
      | some e => writeError StatusInternalServerError e [.GetLink serverID] res.fetched
      | none =>
        let link := res.val
        let d := env.DecryptStream link h.client
        match d.err with
        | some _ =>
          writeJSON StatusOK (.stream ⟨link, [], ""⟩)
            [.GetLink serverID, .DecryptStream link] (res.fetched ++ d.fetched)
        | none =>
          writeJSON StatusOK (.stream ⟨d.streamURL, d.subtitles, d.referer⟩)
            [.GetLink serverID, .DecryptStream link] (res.fetched ++ d.fetched)

end Handler

/-- The seven pipeline stages served over HTTP. -/
inductive Stage
  | Search | GetMediaID | GetSeasons | GetEpisodes | GetServers | GetLink | GetStream
  deriving DecidableEq, Repr

/-- The handler that `main` routes each stage to. -/
def Stage.handler : Stage → Env → Handler → Request → Outcome
  | .Search => Handler.Search
  | .GetMediaID => Handler.GetMediaID
  | .GetSeasons => Handler.GetSeasons
  | .GetEpisodes => Handler.GetEpisodes
  | .GetServers => Handler.GetServers
  | .GetLink => Handler.GetLink
  | .GetStream => Handler.GetStream

/-- The query parameter each stage handler requires to be non-empty. -/
def Stage.param : Stage → String
  | .Search => "q"
  | .GetMediaID => "url"
  | .GetSeasons => "mediaId"
  | .GetEpisodes => "id"
  | .GetServers => "episodeId"
  | .GetLink => "serverId"
  | .GetStream => "serverId"

/-! ## Vocabulary of the claims -/

/-- The server discriminators `Brocoflix.GetLink` knows. -/
def knownServers : List String := ["vidsrc", "multiembed", "vidlink", "embedsu"]

/-- The movie link template of each known server, filled with a TMDB id. -/
def movieLink (server tmdbID : String) : String :=
  if server = "vidsrc" then "https://vidsrc.xyz/embed/movie/" ++ tmdbID
  else if server = "multiembed" then "https://multiembed.mov/?video_id=" ++ tmdbID ++ "&tmdb=1"
  else if server = "vidlink" then "https://vidlink.pro/movie/" ++ tmdbID
  else "https://embed.su/embed/movie/" ++ tmdbID

/-- The series link template of each known server, filled with a TMDB id, a
season and an episode. -/
def seriesLink (server tmdbID season episode : String) : String :=
  if server = "vidsrc" then
    "https://vidsrc.xyz/embed/tv/" ++ tmdbID ++ "/" ++ season ++ "/" ++ episode
  else if server = "multiembed" then
    "https://multiembed.mov/?video_id=" ++ tmdbID ++ "&tmdb=1&s=" ++ season ++ "&e=" ++ episode
  else if server = "vidlink" then
    "https://vidlink.pro/tv/" ++ tmdbID ++ "/" ++ season ++ "/" ++ episode
  else "https://embed.su/embed/tv/" ++ tmdbID ++ "/" ++ season ++ "/" ++ episode

/-- Two names that differ at most in the case of their ASCII letters. -/
def sameUpToCase (a b : String) : Prop :=
  a.data.map asciiLower = b.data.map asciiLower

instance (a b : String) : Decidable (sameUpToCase a b) :=
  inferInstanceAs (Decidable (a.data.map asciiLower = b.data.map asciiLower))

/-- An element counts for `FlixHQ.Search` when it has a non-empty href. -/
def FlwItem.hasHref (s : FlwItem) : Bool :=
  s.href.getD "" ≠ ""

/-- The search result that stands for an element: its link under the site's
base URL, with the title, kind and poster read from the element. -/
def FlwItem.result (env : Env) (s : FlwItem) : SearchResult :=
  ⟨s.title.getD "Unknown", "https://flixhq.to" ++ s.href.getD "",
   if env.EqualFold (env.TrimSpace s.fdiType) "TV" ∨ env.EqualFold (env.TrimSpace s.fdiType) "Series"
   then "series" else "movie",
   s.dataSrc.getD "", ""⟩

/-- A name is registered with a handler when the registry has an entry for it. -/
def Handler.registered (h : Handler) (name : String) : Prop :=
  (h.providers.lookup name).isSome

instance (h : Handler) (name : String) : Decidable (h.registered name) :=
  inferInstanceAs (Decidable ((h.providers.lookup name).isSome = true))

/-! ## A concrete environment

Used to evaluate the model on concrete requests: plain URLs are parsed, the
network and the decryption service are unreachable. -/

/-- The characters after the first `?` of a URL. -/
def rawQueryOf : List Char → List Char
  | [] => []
  | c :: cs => if c = '?' then cs else rawQueryOf cs

/-- The pair `key=value` cut at its first `=`. -/
def cutPair (cs : List Char) : String × String :=
  (String.mk (cs.takeWhile (fun c => c ≠ '=')),
   String.mk ((cs.dropWhile (fun c => c ≠ '=')).drop 1))

/-- Appending a value to those of a key, `m[key] = append(m[key], value)`. -/
def addValue (v : Values) (k x : String) : Values :=
  mapSet v k ((v.lookup k).getD [] ++ [x])

/-- How `net/url` reads the query of a URL that has no fragment, no escape
sequence and no semicolon: the pairs between `&`, empty ones skipped. -/
def plainQuery (s : String) : Values :=
  ((splitChars '&' (rawQueryOf s.data)).filter (fun kv => kv ≠ [])).foldl
    (fun v kv => addValue v (cutPair kv).1 (cutPair kv).2) []

/-- A client without network: every request fails. -/
def offlineClient : Client := ⟨fun _ => .error "network unreachable"⟩

/-- A provider whose site cannot be reached: every operation fails after one fetch. -/
def offlineProvider (name : String) : Provider where
  Name := name
  Search := fun q => ⟨[], some "network unreachable", ["https://" ++ name ++ "/search/" ++ q]⟩
  GetMediaID := fun u => ⟨"", some "network unreachable", [u]⟩
  GetSeasons := fun i => ⟨[], some "network unreachable", ["https://" ++ name ++ "/" ++ i]⟩
  GetEpisodes := fun i _ => ⟨[], some "network unreachable", ["https://" ++ name ++ "/" ++ i]⟩
  GetServers := fun i => ⟨[], some "network unreachable", ["https://" ++ name ++ "/" ++ i]⟩
  GetLink := fun i => ⟨"", some "network unreachable", ["https://" ++ name ++ "/" ++ i]⟩

def sampleEnv : Env where
  urlParse := fun s => .ok ⟨plainQuery s⟩
  QueryEscape := fun s => s
  lowerTable := fun c => c
  decodeSearch := fun _ => .error "unexpected end of JSON input"
  decodeShow := fun _ => .error "unexpected end of JSON input"
  decodeSeason := fun _ => .error "unexpected end of JSON input"
  TrimSpace := fun s => s
  EqualFold := fun a b => sameUpToCase a b
  flwItems := fun _ => .ok []
  NewClient := offlineClient
  DecryptStream := fun link _ => ⟨"", [], "", some "decoder unreachable", [link]⟩
  NewFlixHQ := fun _ => offlineProvider "flixhq"
  NewXPrime := fun _ => offlineProvider "xprime"
  NewSflix := fun _ => offlineProvider "sflix"
  NewBraflix := fun _ => offlineProvider "braflix"
  NewHDRezka := fun _ => offlineProvider "hdrezka"
  NewMovies4u := fun _ => offlineProvider "movies4u"
  NewYouTube := fun _ => offlineProvider "youtube"

/-- The request `?provider=brocoflix&serverId=vidsrc:movie:603`. -/
def sampleStreamRequest : Request :=
  ⟨[("provider", ["brocoflix"]), ("serverId", ["vidsrc:movie:603"])]⟩

/-- A range order that visits the keys last to first. -/
def reverseOrder : RangeOrder := ⟨List.reverse, List.reverse_perm⟩

/-- The request `?provider=hdrezka` with no stage parameter. -/
def sampleBareRequest : Request := ⟨[("provider", ["hdrezka"])]⟩

/-- The request `?q=matrix&provider=netflix`, naming a provider that is not registered. -/
def sampleUnknownProviderRequest : Request := ⟨[("q", ["matrix"]), ("provider", ["netflix"])]⟩

/-- The request `?provider=brocoflix&serverId=vidsrc:movie&mediaId=603`, whose
server ID has two tokens and whose media ID has one. -/
def sampleMalformedRequest : Request :=
  ⟨[("provider", ["brocoflix"]), ("serverId", ["vidsrc:movie"]), ("mediaId", ["603"])]⟩

/-- A client that answers every request with the same body. -/
def cannedClient (body : String) : Client := ⟨fun _ => .ok body⟩

/-- A result page of three elements, the second without a link. -/
def samplePage : List FlwItem :=
  [ ⟨some "The Matrix", some "/movie/watch-the-matrix-19724", some "https://img/1.jpg", "Movie"⟩,
    ⟨some "Untitled", none, none, ""⟩,
    ⟨none, some "/tv/watch-matrix-2", none, "TV"⟩ ]

/-- The sample environment with a page parser that finds `samplePage`. -/
def samplePageEnv : Env := { sampleEnv with flwItems := fun _ => .ok samplePage }

/-! ## Lemmas on splitting -/

theorem splitChars_noSep (sep : Char) (t : List Char) (h : sep ∉ t) :
    splitChars sep t = [t] := by
  induction t with
  | nil => rfl
  | cons c cs ih =>
    have hc : c ≠ sep := fun e => h (by simp [e])
    have hcs : sep ∉ cs := fun m => h (by simp [m])
    simp [splitChars, hc, ih hcs]

theorem splitChars_append (sep : Char) (a b : List Char) (h : sep ∉ a) :
    splitChars sep (a ++ sep :: b) = a :: splitChars sep b := by
  induction a with
  | nil => simp [splitChars]
  | cons c cs ih =>
    have hc : c ≠ sep := fun e => h (by simp [e])
    have hcs : sep ∉ cs := fun m => h (by simp [m])
    simp [splitChars, hc, ih hcs]

theorem splitChars_ne_nil (sep : Char) (t : List Char) : splitChars sep t ≠ [] := by
  induction t with
  | nil => simp [splitChars]
  | cons c cs ih =>
    unfold splitChars
    split
    · simp
    · split <;> simp

/-- Splitting `a ++ ":" ++ rest` when `a` has no colon. -/
theorem stringsSplit_token (a rest : String) (h : ':' ∉ a.data) :
    stringsSplit (a ++ ":" ++ rest) ':' = a :: stringsSplit rest ':' := by
  have e : (a ++ ":" ++ rest).data = a.data ++ ':' :: rest.data := by
    simp [String.data_append]
  simp [stringsSplit, e, splitChars_append _ _ _ h]

theorem stringsSplit_last (a : String) (h : ':' ∉ a.data) :
    stringsSplit a ':' = [a] := by
  simp [stringsSplit, splitChars_noSep _ _ h]

/-! ## Claims -/

/-- C1: in the GetStream handler, when the selected provider's GetLink
returns a link without error for a non-empty serverId and DecryptStream
returns an error, the response is a success (200) StreamResult whose stream
URL is exactly that link, with no subtitles and an empty referer. -/
theorem getStream_falls_back_to_embed_link (env : Env) (h : Handler) (r : Request)
    (p : Provider)
    (hid : r.Query.Get "serverId" ≠ "")
    (hp : h.getProvider env (r.Query.Get "provider") = some p)
    (hlink : (p.GetLink (r.Query.Get "serverId")).err = none)
    (hdec : (env.DecryptStream (p.GetLink (r.Query.Get "serverId")).val h.client).err ≠ none) :
    (h.GetStream env r).status = 200 ∧
    (h.GetStream env r).body =
      .stream ⟨(p.GetLink (r.Query.Get "serverId")).val, [], ""⟩ := by
  unfold Handler.GetStream
  simp only [hid, if_false, hp, hlink]
  cases hd : (env.DecryptStream (p.GetLink (r.Query.Get "serverId")).val h.client).err with
  | none => exact absurd hd hdec
  | some e => simp [writeJSON, StatusOK]

theorem getStream_falls_back_to_embed_link_witness :
    sampleStreamRequest.Query.Get "serverId" ≠ "" ∧
    (NewHandler sampleEnv).getProvider sampleEnv (sampleStreamRequest.Query.Get "provider")
      = some ((NewBrocoflix offlineClient).asProvider sampleEnv) ∧
    ((NewHandler sampleEnv).GetStream sampleEnv sampleStreamRequest).status = 200 ∧
    ((NewHandler sampleEnv).GetStream sampleEnv sampleStreamRequest).body =
      .stream ⟨"https://vidsrc.xyz/embed/movie/603", [], ""⟩ :=
  ⟨by decide, rfl,
    getStream_falls_back_to_embed_link sampleEnv (NewHandler sampleEnv) sampleStreamRequest
      ((NewBrocoflix offlineClient).asProvider sampleEnv) (by decide) rfl rfl (by decide)⟩

/-- C2: for every TMDB id `t` without a colon, GetLink on
`"vidsrc:movie:" + t` succeeds and returns exactly
`"https://vidsrc.xyz/embed/movie/" + t`. -/
theorem getLink_vidsrc_movie (b : Brocoflix) (t : String) (ht : ':' ∉ t.data) :
    b.GetLink ("vidsrc:movie:" ++ t) = ⟨"https://vidsrc.xyz/embed/movie/" ++ t, none⟩ := by
  have e : "vidsrc:movie:" ++ t = "vidsrc" ++ ":" ++ ("movie" ++ ":" ++ t) := by
    apply String.ext; simp [String.data_append]
  have hs : stringsSplit ("vidsrc:movie:" ++ t) ':' = ["vidsrc", "movie", t] := by
    rw [e, stringsSplit_token _ _ (by decide), stringsSplit_token _ _ (by decide),
      stringsSplit_last _ ht]
  simp [Brocoflix.GetLink, hs, idx]

theorem getLink_vidsrc_movie_witness :
    ':' ∉ "603".data ∧
    (NewBrocoflix offlineClient).GetLink ("vidsrc:movie:" ++ "603")
      = ⟨"https://vidsrc.xyz/embed/movie/" ++ "603", none⟩ :=
  ⟨by decide, getLink_vidsrc_movie (NewBrocoflix offlineClient) "603" (by decide)⟩

/-- C3: for all `t`, `s`, `e` without a colon, GetLink on
`"vidsrc:series:" + t + ":" + s + ":" + e` succeeds and returns exactly
`"https://vidsrc.xyz/embed/tv/" + t + "/" + s + "/" + e`. -/
theorem getLink_vidsrc_series (b : Brocoflix) (t s e : String)
    (ht : ':' ∉ t.data) (hs : ':' ∉ s.data) (he : ':' ∉ e.data) :
    b.GetLink ("vidsrc:series:" ++ t ++ ":" ++ s ++ ":" ++ e)
      = ⟨"https://vidsrc.xyz/embed/tv/" ++ t ++ "/" ++ s ++ "/" ++ e, none⟩ := by
  have e1 : "vidsrc:series:" ++ t ++ ":" ++ s ++ ":" ++ e
      = "vidsrc" ++ ":" ++ ("series" ++ ":" ++ (t ++ ":" ++ (s ++ ":" ++ e))) := by
    apply String.ext; simp [String.data_append]
  have hsp : stringsSplit ("vidsrc:series:" ++ t ++ ":" ++ s ++ ":" ++ e) ':'
      = ["vidsrc", "series", t, s, e] := by
    rw [e1, stringsSplit_token _ _ (by decide), stringsSplit_token _ _ (by decide),
      stringsSplit_token _ _ ht, stringsSplit_token _ _ hs, stringsSplit_last _ he]
  simp [Brocoflix.GetLink, hsp, idx]

theorem getLink_vidsrc_series_witness :
    ':' ∉ "1399".data ∧ ':' ∉ "1".data ∧ ':' ∉ "2".data ∧
    (NewBrocoflix offlineClient).GetLink ("vidsrc:series:" ++ "1399" ++ ":" ++ "1" ++ ":" ++ "2")
      = ⟨"https://vidsrc.xyz/embed/tv/" ++ "1399" ++ "/" ++ "1" ++ "/" ++ "2", none⟩ :=
  ⟨by decide, by decide, by decide,
    getLink_vidsrc_series (NewBrocoflix offlineClient) "1399" "1" "2"
      (by decide) (by decide) (by decide)⟩

/-- C4: for every URL that `url.Parse` accepts, GetMediaID succeeds exactly
when the query's `id` and `type` parameters (as `Values.Get` reads them) are
both non-empty; on success the result is `type + ":" + id`, and otherwise it
fails with the error "invalid url" and returns the empty string. -/
theorem getMediaID_succeeds_iff (env : Env) (b : Brocoflix) (urlStr : String) (u : URL)
    (hparse : env.urlParse urlStr = .ok u) :
    ((b.GetMediaID env urlStr).err = none ↔
      (u.Query.Get "id" ≠ "" ∧ u.Query.Get "type" ≠ "")) ∧
    ((u.Query.Get "id" ≠ "" ∧ u.Query.Get "type" ≠ "") →
      b.GetMediaID env urlStr = ⟨u.Query.Get "type" ++ ":" ++ u.Query.Get "id", none⟩) ∧
    ((u.Query.Get "id" = "" ∨ u.Query.Get "type" = "") →
      b.GetMediaID env urlStr = ⟨"", some "invalid url"⟩) := by
  unfold Brocoflix.GetMediaID
  simp only [hparse]
  by_cases h1 : u.Query.Get "id" = "" <;> by_cases h2 : u.Query.Get "type" = "" <;>
    simp [h1, h2]

theorem getMediaID_succeeds_iff_witness :
    sampleEnv.urlParse "https://brocoflix.xyz/pages/info.html?id=603&type=movie"
      = .ok ⟨[("id", ["603"]), ("type", ["movie"])]⟩ ∧
    (NewBrocoflix offlineClient).GetMediaID sampleEnv
      "https://brocoflix.xyz/pages/info.html?id=603&type=movie" = ⟨"movie:603", none⟩ ∧
    sampleEnv.urlParse "https://brocoflix.xyz/pages/info.html?id=603"
      = .ok ⟨[("id", ["603"])]⟩ ∧
    (NewBrocoflix offlineClient).GetMediaID sampleEnv
      "https://brocoflix.xyz/pages/info.html?id=603" = ⟨"", some "invalid url"⟩ :=
  ⟨rfl,
   (getMediaID_succeeds_iff sampleEnv (NewBrocoflix offlineClient)
      "https://brocoflix.xyz/pages/info.html?id=603&type=movie"
      ⟨[("id", ["603"]), ("type", ["movie"])]⟩ rfl).2.1 (by decide),
   rfl,
   (getMediaID_succeeds_iff sampleEnv (NewBrocoflix offlineClient)
      "https://brocoflix.xyz/pages/info.html?id=603"
      ⟨[("id", ["603"])]⟩ rfl).2.2 (by decide)⟩

/-- C5 fails as stated: a `series` server ID of 3 or of 4 tokens and a `movie`
server ID of 4 tokens all yield a link without error. -/
theorem getLink_wrong_token_count_accepted :
    (stringsSplit "vidsrc:series:1399" ':').length = 3 ∧
    (NewBrocoflix offlineClient).GetLink "vidsrc:series:1399"
      = ⟨"https://vidsrc.xyz/embed/tv/1399//", none⟩ ∧
    (stringsSplit "vidsrc:series:1399:1" ':').length = 4 ∧
    (NewBrocoflix offlineClient).GetLink "vidsrc:series:1399:1"
      = ⟨"https://vidsrc.xyz/embed/tv/1399//", none⟩ ∧
    (stringsSplit "vidsrc:movie:603:1" ':').length = 4 ∧
    (NewBrocoflix offlineClient).GetLink "vidsrc:movie:603:1"
      = ⟨"https://vidsrc.xyz/embed/movie/603", none⟩ := by
  decide

/-- C5, amended: GetLink fails with the format error "invalid server id" and
returns no link for every server ID of fewer than 3 colon-separated tokens.
Larger token counts are not rejected: with a known server name, a `movie`
server ID of 3 or more tokens yields the movie link of its third token, and a
`series` server ID of 5 or more tokens the series link of its third, fourth
and fifth tokens; further tokens are ignored. -/
theorem getLink_token_count (b : Brocoflix) (serverID : String) :
    ((stringsSplit serverID ':').length < 3 →
      b.GetLink serverID = ⟨"", some "invalid server id"⟩) ∧
    (∀ name id rest, name ∈ knownServers →
      stringsSplit serverID ':' = name :: "movie" :: id :: rest →
      b.GetLink serverID = ⟨movieLink name id, none⟩) ∧
    (∀ name id season episode rest, name ∈ knownServers →
      stringsSplit serverID ':' = name :: "series" :: id :: season :: episode :: rest →
      b.GetLink serverID = ⟨seriesLink name id season episode, none⟩) := by
  refine ⟨?_, ?_, ?_⟩
  · intro h
    simp [Brocoflix.GetLink, h]
  · intro name id rest hn hs
    simp only [knownServers, List.mem_cons, List.mem_singleton, List.not_mem_nil, or_false] at hn
    rcases hn with rfl | rfl | rfl | rfl <;>
      simp [Brocoflix.GetLink, hs, idx, movieLink]
  · intro name id season episode rest hn hs
    simp only [knownServers, List.mem_cons, List.mem_singleton, List.not_mem_nil, or_false] at hn
    rcases hn with rfl | rfl | rfl | rfl <;>
      simp [Brocoflix.GetLink, hs, idx, seriesLink]

theorem getLink_token_count_witness :
    ((stringsSplit "vidsrc:movie" ':').length < 3 ∧
      (NewBrocoflix offlineClient).GetLink "vidsrc:movie" = ⟨"", some "invalid server id"⟩) ∧
    ("vidlink" ∈ knownServers ∧
      stringsSplit "vidlink:movie:603:x" ':' = "vidlink" :: "movie" :: "603" :: ["x"] ∧
      (NewBrocoflix offlineClient).GetLink "vidlink:movie:603:x"
        = ⟨"https://vidlink.pro/movie/603", none⟩) ∧
    ("embedsu" ∈ knownServers ∧
      stringsSplit "embedsu:series:1399:1:2:x" ':'
        = "embedsu" :: "series" :: "1399" :: "1" :: "2" :: ["x"] ∧
      (NewBrocoflix offlineClient).GetLink "embedsu:series:1399:1:2:x"
        = ⟨"https://embed.su/embed/tv/1399/1/2", none⟩) :=
  ⟨⟨by decide,
     (getLink_token_count (NewBrocoflix offlineClient) "vidsrc:movie").1 (by decide)⟩,
   ⟨by decide, by decide,
     (getLink_token_count (NewBrocoflix offlineClient) "vidlink:movie:603:x").2.1
       "vidlink" "603" ["x"] (by decide) (by decide)⟩,
   ⟨by decide, by decide,
     (getLink_token_count (NewBrocoflix offlineClient) "embedsu:series:1399:1:2:x").2.2
       "embedsu" "1399" "1" "2" ["x"] (by decide) (by decide)⟩⟩

/-- C6: for every server ID whose first token is not one of vidsrc,
multiembed, vidlink, embedsu, GetLink returns an empty link together with an
error ("invalid server id" below three tokens, "unknown server: <token>"
otherwise), whatever the remaining tokens are. -/
theorem getLink_unknown_server (b : Brocoflix) (serverID : String)
    (h : idx (stringsSplit serverID ':') 0 ∉ knownServers) :
    b.GetLink serverID =
      ⟨"", some (if (stringsSplit serverID ':').length < 3 then "invalid server id"
        else "unknown server: " ++ idx (stringsSplit serverID ':') 0)⟩ := by
  simp only [knownServers, List.mem_cons, List.mem_singleton, List.not_mem_nil, or_false,
    not_or] at h
  obtain ⟨h1, h2, h3, h4⟩ := h
  unfold Brocoflix.GetLink
  by_cases hl : (stringsSplit serverID ':').length < 3
  · simp [hl]
  · simp [hl, h1, h2, h3, h4]

theorem getLink_unknown_server_witness :
    idx (stringsSplit "streamtape:movie:603" ':') 0 ∉ knownServers ∧
    (NewBrocoflix offlineClient).GetLink "streamtape:movie:603"
      = ⟨"", some "unknown server: streamtape"⟩ :=
  ⟨by decide,
    getLink_unknown_server (NewBrocoflix offlineClient) "streamtape:movie:603" (by decide)⟩

/-- C7: for every media ID `"movie:" + id` with `id` free of colons,
GetSeasons returns the empty sequence and no error, and fetches nothing. -/
theorem getSeasons_movie (env : Env) (b : Brocoflix) (id : String) (hid : ':' ∉ id.data) :
    b.GetSeasons env ("movie:" ++ id) = ⟨[], none, []⟩ := by
  have e : "movie:" ++ id = "movie" ++ ":" ++ id := by
    apply String.ext; simp [String.data_append]
  have hs : stringsSplit ("movie:" ++ id) ':' = ["movie", id] := by
    rw [e, stringsSplit_token _ _ (by decide), stringsSplit_last _ hid]
  simp [Brocoflix.GetSeasons, hs, idx]

theorem getSeasons_movie_witness :
    ':' ∉ "603".data ∧
    (NewBrocoflix offlineClient).GetSeasons sampleEnv ("movie:" ++ "603") = ⟨[], none, []⟩ :=
  ⟨by decide, getSeasons_movie sampleEnv (NewBrocoflix offlineClient) "603" (by decide)⟩

/-! ## The registry -/

theorem newHandler_providers (env : Env) :
    (NewHandler env).providers =
      [("flixhq", env.NewFlixHQ env.NewClient),
       ("brocoflix", (NewBrocoflix env.NewClient).asProvider env),
       ("xprime", env.NewXPrime env.NewClient),
       ("sflix", env.NewSflix env.NewClient),
       ("braflix", env.NewBraflix env.NewClient),
       ("hdrezka", env.NewHDRezka env.NewClient),
       ("movies4u", env.NewMovies4u env.NewClient),
       ("youtube", env.NewYouTube env.NewClient)] := by
  rfl

theorem unicodeToLower_of_ascii (tbl : Char → Char) (c : Char)
    (h : (asciiLower c).toNat < 128) : unicodeToLower tbl c = asciiLower c := by
  unfold unicodeToLower
  by_cases hc : c.toNat < 128
  · simp [hc]
  · have hne : ¬ (65 ≤ c.toNat ∧ c.toNat ≤ 90) := by omega
    have : asciiLower c = c := by simp [asciiLower, hne]
    rw [this] at h
    exact absurd h hc

theorem map_unicodeToLower_of_ascii (tbl : Char → Char) (l : List Char)
    (h : ∀ c ∈ l.map asciiLower, c.toNat < 128) :
    l.map (unicodeToLower tbl) = l.map asciiLower := by
  induction l with
  | nil => rfl
  | cons c cs ih =>
    simp only [List.map_cons, List.mem_cons, forall_eq_or_imp] at h ⊢
    rw [unicodeToLower_of_ascii tbl c h.1, ih h.2]

/-- Lower-casing a name that differs only in case from a lower-case ASCII name
gives that name. -/
theorem stringsToLower_of_sameUpToCase (tbl : Char → Char) (a n : String)
    (hs : sameUpToCase a n) (hlow : n.data.map asciiLower = n.data)
    (hascii : ∀ c ∈ n.data, c.toNat < 128) : stringsToLower tbl a = n := by
  unfold sameUpToCase at hs
  rw [hlow] at hs
  unfold stringsToLower
  rw [map_unicodeToLower_of_ascii tbl a.data (by rw [hs]; exact hascii), hs]

theorem registered_names_lower :
    ∀ n ∈ ["flixhq", "brocoflix", "xprime", "sflix", "braflix", "hdrezka", "movies4u",
        "youtube"],
      n ≠ "" ∧ n.data.map asciiLower = n.data ∧ ∀ c ∈ n.data, c.toNat < 128 := by
  decide

/-- C8: on the handler built by NewHandler, getProvider of the empty name
returns the same provider as getProvider of "flixhq", namely the instance
NewHandler registered under "flixhq" (never nil). -/
theorem getProvider_empty_is_default (env : Env) :
    (NewHandler env).getProvider env "" = (NewHandler env).getProvider env "flixhq" ∧
    (NewHandler env).getProvider env "flixhq" = some (env.NewFlixHQ env.NewClient) ∧
    (NewHandler env).providers.lookup "flixhq" = some (env.NewFlixHQ env.NewClient) := by
  refine ⟨rfl, rfl, rfl⟩

theorem newHandler_keys (env : Env) :
    (NewHandler env).providers.map Prod.fst =
      ["flixhq", "brocoflix", "xprime", "sflix", "braflix", "hdrezka", "movies4u",
        "youtube"] := by
  rfl

theorem lookup_isSome_of_mem_keys {α : Type} (l : List (String × α)) (k : String)
    (h : k ∈ l.map Prod.fst) : (l.lookup k).isSome := by
  rw [List.lookup_isSome_iff]
  obtain ⟨p, hp, rfl⟩ := List.mem_map.1 h
  exact ⟨p, hp, by simp⟩

theorem mem_keys_of_lookup_isSome {α : Type} (l : List (String × α)) (k : String)
    (h : (l.lookup k).isSome) : k ∈ l.map Prod.fst := by
  rw [List.lookup_isSome_iff] at h
  obtain ⟨p, hp, hk⟩ := h
  exact List.mem_map.2 ⟨p, hp, (by simpa using hk : k = p.1).symm⟩

/-- C9: on the handler built by NewHandler, ListProviders answers 200 with a
list of names that is non-empty and contains every registered name exactly
once, whatever order the map is ranged over; and for every listed name `n`
and every `n'` that differs from `n` only in letter case, getProvider `n'`
returns the instance registered under `n`, never nil. -/
theorem listProviders_complete_and_resolvable (env : Env) (ord : RangeOrder) (r : Request) :
    ((NewHandler env).ListProviders ord r).status = 200 ∧
    (∃ names, ((NewHandler env).ListProviders ord r).body = .providers names) ∧
    ∀ names, ((NewHandler env).ListProviders ord r).body = .providers names →
      names ≠ [] ∧
      (∀ k, (NewHandler env).registered k → names.count k = 1) ∧
      (∀ n, n ∈ names → ∀ n', sameUpToCase n' n →
        (NewHandler env).getProvider env n' = (NewHandler env).providers.lookup n ∧
        ((NewHandler env).getProvider env n').isSome) := by
  refine ⟨rfl, ⟨_, rfl⟩, ?_⟩
  intro names hb
  have hperm := ord.perm ((NewHandler env).providers.map Prod.fst)
  have hnames : names = ord.visit ((NewHandler env).providers.map Prod.fst) := by
    simp only [Handler.ListProviders, writeJSON, Body.providers.injEq] at hb
    exact hb.symm
  rw [← hnames] at hperm
  refine ⟨?_, ?_, ?_⟩
  · intro hnil
    rw [hnil, newHandler_keys] at hperm
    exact absurd hperm.nil_eq (by simp)
  · intro k hk
    have hmem : k ∈ (NewHandler env).providers.map Prod.fst :=
      mem_keys_of_lookup_isSome _ _ hk
    rw [hperm.count_eq k]
    apply List.count_eq_one_of_mem _ hmem
    rw [newHandler_keys]
    decide
  · intro n hn n' hs
    have hmem : n ∈ (NewHandler env).providers.map Prod.fst := hperm.mem_iff.1 hn
    have hreg := lookup_isSome_of_mem_keys _ _ hmem
    rw [newHandler_keys] at hmem
    obtain ⟨hne, hlow, hascii⟩ := registered_names_lower n hmem
    have hlower := stringsToLower_of_sameUpToCase env.lowerTable n' n hs hlow hascii
    have hn' : n' ≠ "" := by
      intro e
      rw [e] at hlower
      exact hne hlower.symm
    have hget : (NewHandler env).getProvider env n' = (NewHandler env).providers.lookup n := by
      simp [Handler.getProvider, hn', hlower]
    exact ⟨hget, by rw [hget]; exact hreg⟩

theorem listProviders_complete_and_resolvable_witness :
    ((NewHandler sampleEnv).ListProviders reverseOrder ⟨[]⟩).body =
      .providers ["youtube", "movies4u", "hdrezka", "braflix", "sflix", "xprime",
        "brocoflix", "flixhq"] ∧
    "hdrezka" ∈ ["youtube", "movies4u", "hdrezka", "braflix", "sflix", "xprime",
        "brocoflix", "flixhq"] ∧
    sameUpToCase "HDRezka" "hdrezka" ∧
    (NewHandler sampleEnv).getProvider sampleEnv "HDRezka"
      = (NewHandler sampleEnv).providers.lookup "hdrezka" ∧
    ((NewHandler sampleEnv).getProvider sampleEnv "HDRezka").isSome :=
  ⟨rfl, by decide, by decide,
    ((listProviders_complete_and_resolvable sampleEnv reverseOrder ⟨[]⟩).2.2
      ["youtube", "movies4u", "hdrezka", "braflix", "sflix", "xprime", "brocoflix", "flixhq"]
      rfl).2.2 "hdrezka" (by decide) "HDRezka" (by decide)⟩

/-- C10: for each of the seven stage handlers, if the stage's required query
parameter is empty, or the provider name is non-empty and its lower-cased form
is not registered, the response is a 400 carrying a single error message
(that the parameter is required, or "invalid provider"), and no provider
operation, no decryption and no fetch takes place. -/
theorem stage_rejects_bad_input (env : Env) (h : Handler) (r : Request) (st : Stage)
    (hbad : r.Query.Get st.param = "" ∨
      (r.Query.Get "provider" ≠ "" ∧
        ¬ h.registered (stringsToLower env.lowerTable (r.Query.Get "provider")))) :
    (st.handler env h r).status = 400 ∧
    ((st.handler env h r).body
        = .error ("query parameter '" ++ st.param ++ "' is required") ∨
      (st.handler env h r).body = .error "invalid provider") ∧
    (st.handler env h r).calls = [] ∧
    (st.handler env h r).fetched = [] := by
  have hnone : (r.Query.Get "provider" ≠ "" ∧
      ¬ h.registered (stringsToLower env.lowerTable (r.Query.Get "provider"))) →
      h.getProvider env (r.Query.Get "provider") = none := by
    rintro ⟨hne, hreg⟩
    simp only [Handler.registered, Bool.not_eq_true, Option.not_isSome,
      Option.isNone_iff_eq_none] at hreg
    simp [Handler.getProvider, hne, hreg]
  by_cases hp : r.Query.Get st.param = ""
  · cases st <;>
      simp [Stage.param] at hp <;>
      simp [Stage.handler, Stage.param, Handler.Search, Handler.GetMediaID,
        Handler.GetSeasons, Handler.GetEpisodes, Handler.GetServers, Handler.GetLink,
        Handler.GetStream, hp, writeError, writeJSON, StatusBadRequest]
  · have hg := hnone (hbad.resolve_left hp)
    cases st <;>
      simp [Stage.param] at hp <;>
      simp [Stage.handler, Handler.Search, Handler.GetMediaID,
        Handler.GetSeasons, Handler.GetEpisodes, Handler.GetServers, Handler.GetLink,
        Handler.GetStream, hp, hg, writeError, writeJSON, StatusBadRequest]

theorem stage_rejects_bad_input_witness :
    (sampleBareRequest.Query.Get Stage.GetStream.param = "" ∧
      Stage.GetStream.handler sampleEnv (NewHandler sampleEnv) sampleBareRequest
        = ⟨400, .error "query parameter 'serverId' is required", [], []⟩) ∧
    ((sampleUnknownProviderRequest.Query.Get "provider" ≠ "" ∧
      ¬ (NewHandler sampleEnv).registered
        (stringsToLower sampleEnv.lowerTable
          (sampleUnknownProviderRequest.Query.Get "provider"))) ∧
      (Stage.Search.handler sampleEnv (NewHandler sampleEnv)
        sampleUnknownProviderRequest).status = 400 ∧
      (Stage.Search.handler sampleEnv (NewHandler sampleEnv)
        sampleUnknownProviderRequest).calls = []) :=
  ⟨⟨by decide, rfl⟩,
   ⟨by decide,
    (stage_rejects_bad_input sampleEnv (NewHandler sampleEnv) sampleUnknownProviderRequest
      Stage.Search (Or.inr (by decide))).1,
    (stage_rejects_bad_input sampleEnv (NewHandler sampleEnv) sampleUnknownProviderRequest
      Stage.Search (Or.inr (by decide))).2.2.1⟩⟩

/-! ## Malformed identifiers at the handlers -/

/-- C11 fails as stated: routed to brocoflix, a two-token server ID at GetLink
and GetStream and a one-token media ID at GetSeasons are answered with status
500, while a missing parameter is answered with status 400. -/
theorem brocoflix_malformed_id_answered_500 :
    (NewHandler sampleEnv).GetLink sampleEnv sampleMalformedRequest
      = ⟨500, .error "invalid server id", [.GetLink "vidsrc:movie"], []⟩ ∧
    (NewHandler sampleEnv).GetStream sampleEnv sampleMalformedRequest
      = ⟨500, .error "invalid server id", [.GetLink "vidsrc:movie"], []⟩ ∧
    (NewHandler sampleEnv).GetSeasons sampleEnv sampleMalformedRequest
      = ⟨500, .error "invalid media id format", [.GetSeasons "603"], []⟩ ∧
    ((NewHandler sampleEnv).GetLink sampleEnv sampleBareRequest).status = 400 := by
  decide

/-- C11, amended: when a stage is routed to the brocoflix provider with a
malformed identifier (GetLink or GetStream with a non-empty server ID of fewer
than three tokens, GetSeasons with a non-empty media ID that does not have
exactly two tokens), the failure is reported with status 500, the status of
every provider error, carrying the provider's message; the provider operation
is the only one invoked, without any network access and without decryption. -/
theorem brocoflix_malformed_id_reported (env : Env) (h : Handler) (r : Request)
    (b : Brocoflix)
    (hp : h.getProvider env (r.Query.Get "provider") = some (b.asProvider env)) :
    (r.Query.Get "serverId" ≠ "" →
      (stringsSplit (r.Query.Get "serverId") ':').length < 3 →
      h.GetLink env r
        = ⟨500, .error "invalid server id", [.GetLink (r.Query.Get "serverId")], []⟩ ∧
      h.GetStream env r
        = ⟨500, .error "invalid server id", [.GetLink (r.Query.Get "serverId")], []⟩) ∧
    (r.Query.Get "mediaId" ≠ "" →
      (stringsSplit (r.Query.Get "mediaId") ':').length ≠ 2 →
      h.GetSeasons env r
        = ⟨500, .error "invalid media id format", [.GetSeasons (r.Query.Get "mediaId")],
            []⟩) := by
  refine ⟨?_, ?_⟩
  · intro hne hlen
    have hl : b.GetLink (r.Query.Get "serverId") = ⟨"", some "invalid server id"⟩ := by
      simp [Brocoflix.GetLink, hlen]
    constructor
    · simp [Handler.GetLink, hne, hp, Brocoflix.asProvider, Result.traced, hl, writeError,
        writeJSON, StatusInternalServerError]
    · simp [Handler.GetStream, hne, hp, Brocoflix.asProvider, Result.traced, hl, writeError,
        writeJSON, StatusInternalServerError]
  · intro hne hlen
    have hs : b.GetSeasons env (r.Query.Get "mediaId")
        = ⟨[], some "invalid media id format", []⟩ := by
      simp [Brocoflix.GetSeasons, hlen]
    simp [Handler.GetSeasons, hne, hp, Brocoflix.asProvider, hs, writeError, writeJSON,
      StatusInternalServerError]

theorem brocoflix_malformed_id_reported_witness :
    (NewHandler sampleEnv).getProvider sampleEnv (sampleMalformedRequest.Query.Get "provider")
      = some ((NewBrocoflix offlineClient).asProvider sampleEnv) ∧
    (sampleMalformedRequest.Query.Get "serverId" ≠ "" ∧
      (stringsSplit (sampleMalformedRequest.Query.Get "serverId") ':').length < 3 ∧
      ((NewHandler sampleEnv).GetLink sampleEnv sampleMalformedRequest).status = 500 ∧
      ((NewHandler sampleEnv).GetStream sampleEnv sampleMalformedRequest).fetched = []) ∧
    (sampleMalformedRequest.Query.Get "mediaId" ≠ "" ∧
      (stringsSplit (sampleMalformedRequest.Query.Get "mediaId") ':').length ≠ 2 ∧
      ((NewHandler sampleEnv).GetSeasons sampleEnv sampleMalformedRequest).status = 500) :=
  ⟨rfl,
   ⟨by decide, by decide,
    congrArg Outcome.status
      ((brocoflix_malformed_id_reported sampleEnv (NewHandler sampleEnv)
        sampleMalformedRequest (NewBrocoflix offlineClient) rfl).1 (by decide) (by decide)).1,
    congrArg Outcome.fetched
      ((brocoflix_malformed_id_reported sampleEnv (NewHandler sampleEnv)
        sampleMalformedRequest (NewBrocoflix offlineClient) rfl).1 (by decide) (by decide)).2⟩,
   ⟨by decide, by decide,
    congrArg Outcome.status
      ((brocoflix_malformed_id_reported sampleEnv (NewHandler sampleEnv)
        sampleMalformedRequest (NewBrocoflix offlineClient) rfl).2 (by decide) (by decide))⟩⟩

/-! ## Servers and links of Brocoflix -/

/-- The tokens of a movie server ID as GetServers builds it. -/
theorem stringsSplit_movie_server (p name id : String) (hp : p = name ++ ":")
    (hn : ':' ∉ name.data) (hid : ':' ∉ id.data) :
    stringsSplit (p ++ ("movie:" ++ id)) ':' = [name, "movie", id] := by
  subst hp
  have e : "movie:" ++ id = "movie" ++ ":" ++ id := by
    apply String.ext; simp [String.data_append]
  rw [e, stringsSplit_token _ _ hn, stringsSplit_token _ _ (by decide),
    stringsSplit_last _ hid]

/-- The tokens of a series server ID as GetServers builds it. -/
theorem stringsSplit_series_server (p name id s ep : String) (hp : p = name ++ ":")
    (hn : ':' ∉ name.data)
    (hid : ':' ∉ id.data) (hs : ':' ∉ s.data) (hep : ':' ∉ ep.data) :
    stringsSplit (p ++ ("series:" ++ id ++ ":" ++ s ++ ":" ++ ep)) ':'
      = [name, "series", id, s, ep] := by
  subst hp
  have e : "series:" ++ id ++ ":" ++ s ++ ":" ++ ep
      = "series" ++ ":" ++ (id ++ ":" ++ (s ++ ":" ++ ep)) := by
    apply String.ext; simp [String.data_append]
  rw [e, stringsSplit_token _ _ hn, stringsSplit_token _ _ (by decide),
    stringsSplit_token _ _ hid, stringsSplit_token _ _ hs, stringsSplit_last _ hep]

/-- C12: for every id, GetEpisodes with isSeason false succeeds without any
fetch and returns the four virtual episodes (VidSrc, "vidsrc:"+id),
(MultiEmbed, "multiembed:"+id), (VidLink, "vidlink:"+id), (EmbedSu,
"embedsu:"+id), which are the entries of GetServers for the same id, in the
same order, with the same ID and Name. -/
theorem getEpisodes_movie_mirrors_getServers (env : Env) (b : Brocoflix) (id : String) :
    b.GetEpisodes env id false =
      ⟨[⟨"vidsrc:" ++ id, "VidSrc"⟩, ⟨"multiembed:" ++ id, "MultiEmbed"⟩,
        ⟨"vidlink:" ++ id, "VidLink"⟩, ⟨"embedsu:" ++ id, "EmbedSu"⟩], none, []⟩ ∧
    (b.GetServers id).err = none ∧
    (b.GetEpisodes env id false).val.map (fun e => (e.ID, e.Name))
      = (b.GetServers id).val.map (fun s => (s.ID, s.Name)) ∧
    (b.GetServers id).val = Brocoflix.serversFor id := by
  simp [Brocoflix.GetEpisodes, Brocoflix.GetServers, Brocoflix.serversFor]

/-- C13: for every well-formed episode ID, `"movie:" + id` or
`"series:" + show + ":" + s + ":" + ep` with colon-free fields, GetServers
succeeds and GetLink succeeds on the ID of each of its four servers, in
order VidSrc, MultiEmbed, VidLink, EmbedSu, returning that server's movie
template filled with `id`, respectively its series template filled with
`show`, `s` and `ep`. -/
theorem issued_server_ids_resolve (b : Brocoflix) (id s ep : String)
    (hid : ':' ∉ id.data) (hs : ':' ∉ s.data) (hep : ':' ∉ ep.data) :
    ((b.GetServers ("movie:" ++ id)).err = none ∧
      (b.GetServers ("movie:" ++ id)).val.map (fun srv => b.GetLink srv.ID) =
        [⟨"https://vidsrc.xyz/embed/movie/" ++ id, none⟩,
         ⟨"https://multiembed.mov/?video_id=" ++ id ++ "&tmdb=1", none⟩,
         ⟨"https://vidlink.pro/movie/" ++ id, none⟩,
         ⟨"https://embed.su/embed/movie/" ++ id, none⟩] ∧
      (b.GetServers ("movie:" ++ id)).val.map (fun srv => b.GetLink srv.ID) =
        knownServers.map (fun n => ⟨movieLink n id, none⟩)) ∧
    ((b.GetServers ("series:" ++ id ++ ":" ++ s ++ ":" ++ ep)).err = none ∧
      (b.GetServers ("series:" ++ id ++ ":" ++ s ++ ":" ++ ep)).val.map
          (fun srv => b.GetLink srv.ID) =
        [⟨"https://vidsrc.xyz/embed/tv/" ++ id ++ "/" ++ s ++ "/" ++ ep, none⟩,
         ⟨"https://multiembed.mov/?video_id=" ++ id ++ "&tmdb=1&s=" ++ s ++ "&e=" ++ ep, none⟩,
         ⟨"https://vidlink.pro/tv/" ++ id ++ "/" ++ s ++ "/" ++ ep, none⟩,
         ⟨"https://embed.su/embed/tv/" ++ id ++ "/" ++ s ++ "/" ++ ep, none⟩] ∧
      (b.GetServers ("series:" ++ id ++ ":" ++ s ++ ":" ++ ep)).val.map
          (fun srv => b.GetLink srv.ID) =
        knownServers.map (fun n => ⟨seriesLink n id s ep, none⟩)) := by
  have m1 := stringsSplit_movie_server "vidsrc:" "vidsrc" id (by decide) (by decide) hid
  have m2 := stringsSplit_movie_server "multiembed:" "multiembed" id (by decide) (by decide) hid
  have m3 := stringsSplit_movie_server "vidlink:" "vidlink" id (by decide) (by decide) hid
  have m4 := stringsSplit_movie_server "embedsu:" "embedsu" id (by decide) (by decide) hid
  have s1 := stringsSplit_series_server "vidsrc:" "vidsrc" id s ep (by decide) (by decide) hid hs hep
  have s2 := stringsSplit_series_server "multiembed:" "multiembed" id s ep (by decide) (by decide) hid hs hep
  have s3 := stringsSplit_series_server "vidlink:" "vidlink" id s ep (by decide) (by decide) hid hs hep
  have s4 := stringsSplit_series_server "embedsu:" "embedsu" id s ep (by decide) (by decide) hid hs hep
  refine ⟨⟨rfl, ?_, ?_⟩, ⟨rfl, ?_, ?_⟩⟩
  · simp only [Brocoflix.GetServers, List.map_cons, List.map_nil]
    simp [Brocoflix.GetLink, m1, m2, m3, m4, idx]
  · simp only [Brocoflix.GetServers, List.map_cons, List.map_nil, knownServers]
    simp [Brocoflix.GetLink, m1, m2, m3, m4, idx, movieLink]
  · simp only [Brocoflix.GetServers, List.map_cons, List.map_nil]
    simp [Brocoflix.GetLink, s1, s2, s3, s4, idx]
  · simp only [Brocoflix.GetServers, List.map_cons, List.map_nil, knownServers]
    simp [Brocoflix.GetLink, s1, s2, s3, s4, idx, seriesLink]

theorem issued_server_ids_resolve_witness :
    ':' ∉ "1399".data ∧ ':' ∉ "1".data ∧ ':' ∉ "2".data ∧
    ((NewBrocoflix offlineClient).GetServers ("movie:" ++ "1399")).val.map
        (fun srv => (NewBrocoflix offlineClient).GetLink srv.ID) =
      [⟨"https://vidsrc.xyz/embed/movie/1399", none⟩,
       ⟨"https://multiembed.mov/?video_id=1399&tmdb=1", none⟩,
       ⟨"https://vidlink.pro/movie/1399", none⟩,
       ⟨"https://embed.su/embed/movie/1399", none⟩] ∧
    ((NewBrocoflix offlineClient).GetServers
        ("series:" ++ "1399" ++ ":" ++ "1" ++ ":" ++ "2")).val.map
        (fun srv => (NewBrocoflix offlineClient).GetLink srv.ID) =
      [⟨"https://vidsrc.xyz/embed/tv/1399/1/2", none⟩,
       ⟨"https://multiembed.mov/?video_id=1399&tmdb=1&s=1&e=2", none⟩,
       ⟨"https://vidlink.pro/tv/1399/1/2", none⟩,
       ⟨"https://embed.su/embed/tv/1399/1/2", none⟩] :=
  ⟨by decide, by decide, by decide,
   (issued_server_ids_resolve (NewBrocoflix offlineClient) "1399" "1" "2"
      (by decide) (by decide) (by decide)).1.2.1,
   (issued_server_ids_resolve (NewBrocoflix offlineClient) "1399" "1" "2"
      (by decide) (by decide) (by decide)).2.2.1⟩

/-! ## The result loop of FlixHQ.Search -/

theorem searchStep_of_lt (env : Env) (i : Nat) (x : FlwItem) (acc : List SearchResult)
    (hi : i < 10) :
    FlixHQ.searchStep env i x acc
      = (acc ++ (if x.hasHref then [x.result env] else []), true) := by
  have hge : ¬ i ≥ 10 := by omega
  by_cases hh : x.href.getD "" = ""
  · simp [FlixHQ.searchStep, hge, FlwItem.hasHref, hh]
  · simp [FlixHQ.searchStep, hge, FlwItem.hasHref, hh, FlwItem.result, FLIXHQ_BASE_URL,
      Series, Movie]

/-- The loop gathers, after the results it starts with, the elements with a
link among those whose index is below ten. -/
theorem eachWithBreak_searchStep (env : Env) (items : List FlwItem) :
    ∀ (i : Nat) (acc : List SearchResult),
      eachWithBreak (FlixHQ.searchStep env) i items acc
        = acc ++ (((items.take (10 - i)).filter FlwItem.hasHref).map (FlwItem.result env)) := by
  induction items with
  | nil => intro i acc; simp [eachWithBreak]
  | cons x xs ih =>
    intro i acc
    by_cases hi : i < 10
    · have h10 : 10 - i = (10 - (i + 1)) + 1 := by omega
      rw [eachWithBreak, searchStep_of_lt env i x acc hi]
      simp only [if_true]
      rw [ih (i + 1), h10, List.take_succ_cons]
      by_cases hh : x.hasHref = true
      · simp [hh]
      · simp [hh]
    · have h0 : 10 - i = 0 := by omega
      have hge : i ≥ 10 := by omega
      rw [eachWithBreak, h0]
      simp [FlixHQ.searchStep, hge]

theorem searchItems_eq (env : Env) (items : List FlwItem) :
    FlixHQ.searchItems env items =
      if (items.take 10).filter FlwItem.hasHref = [] then ⟨[], some "no results"⟩
      else ⟨((items.take 10).filter FlwItem.hasHref).map (FlwItem.result env), none⟩ := by
  unfold FlixHQ.searchItems
  rw [eachWithBreak_searchStep env items 0 []]
  by_cases hk : (items.take 10).filter FlwItem.hasHref = []
  · simp [hk]
  · simp [hk]

/-- C14: once the page is fetched and parsed into its `div.flw-item` elements,
FlixHQ.Search never returns an empty success. With `kept` the elements with a
non-empty href among the first ten, in document order: if there is none the
call fails with the error "no results" and no results; otherwise it succeeds
with a non-empty sequence of at most ten results, one per kept element in
that order, each with URL `"https://flixhq.to" + href`. -/
theorem flixhq_search_of_items (env : Env) (f : FlixHQ) (query body : String)
    (items : List FlwItem)
    (hget : f.Client.Get (FLIXHQ_SEARCH_URL ++ "/" ++ replaceSpaces query) = .ok body)
    (hitems : env.flwItems body = .ok items) :
    ((f.Search env query).err = none ∨ (f.Search env query).err = some "no results") ∧
    ((f.Search env query).err = none ↔ (f.Search env query).val ≠ []) ∧
    ((items.take 10).filter FlwItem.hasHref = [] →
      (f.Search env query).val = [] ∧ (f.Search env query).err = some "no results") ∧
    ((items.take 10).filter FlwItem.hasHref ≠ [] →
      (f.Search env query).err = none ∧
      (f.Search env query).val ≠ [] ∧
      (f.Search env query).val.length ≤ 10 ∧
      (f.Search env query).val
        = ((items.take 10).filter FlwItem.hasHref).map (FlwItem.result env) ∧
      (f.Search env query).val.map (fun r => r.URL)
        = ((items.take 10).filter FlwItem.hasHref).map
            (fun s => "https://flixhq.to" ++ s.href.getD "")) := by
  have hS : f.Search env query =
      ⟨(FlixHQ.searchItems env items).val, (FlixHQ.searchItems env items).err,
        [FLIXHQ_SEARCH_URL ++ "/" ++ replaceSpaces query]⟩ := by
    simp [FlixHQ.Search, hget, hitems]
  have hlen : (((items.take 10).filter FlwItem.hasHref).map (FlwItem.result env)).length ≤ 10 := by
    rw [List.length_map]
    exact le_trans (List.length_filter_le _ _) (by simp [List.length_take])
  rw [hS, searchItems_eq]
  by_cases hk : (items.take 10).filter FlwItem.hasHref = []
  · simp [hk]
  · rw [if_neg hk]
    refine ⟨Or.inl rfl, ?_, fun h => absurd h hk, fun _ => ⟨rfl, ?_, hlen, rfl, ?_⟩⟩
    · simp [hk]
    · simpa using hk
    · simp [FlwItem.result, List.map_map, Function.comp_def]

theorem flixhq_search_of_items_witness :
    (cannedClient "<html>").Get (FLIXHQ_SEARCH_URL ++ "/" ++ replaceSpaces "the matrix")
      = .ok "<html>" ∧
    samplePageEnv.flwItems "<html>" = .ok samplePage ∧
    (samplePage.take 10).filter FlwItem.hasHref ≠ [] ∧
    (FlixHQ.Search samplePageEnv ⟨cannedClient "<html>"⟩ "the matrix").err = none ∧
    (FlixHQ.Search samplePageEnv ⟨cannedClient "<html>"⟩ "the matrix").val.map (fun r => r.URL)
      = ["https://flixhq.to/movie/watch-the-matrix-19724", "https://flixhq.to/tv/watch-matrix-2"] ∧
    (FlixHQ.Search { sampleEnv with flwItems := fun _ => .ok [⟨some "Untitled", none, none, ""⟩] }
        ⟨cannedClient "<html>"⟩ "the matrix").err = some "no results" :=
  ⟨rfl, rfl, by decide,
   ((flixhq_search_of_items samplePageEnv ⟨cannedClient "<html>"⟩ "the matrix" "<html>"
      samplePage rfl rfl).2.2.2 (by decide)).1,
   ((flixhq_search_of_items samplePageEnv ⟨cannedClient "<html>"⟩ "the matrix" "<html>"
      samplePage rfl rfl).2.2.2 (by decide)).2.2.2.2,
   ((flixhq_search_of_items
      { sampleEnv with flwItems := fun _ => .ok [⟨some "Untitled", none, none, ""⟩] }
      ⟨cannedClient "<html>"⟩ "the matrix" "<html>"
      [⟨some "Untitled", none, none, ""⟩] rfl rfl).2.2.1 (by decide)).2⟩

end FlixHQAPI
